import Mathlib

/-!
A shallow embedding, in Lean 4, of the supplier-discovery and landed-cost
core of the ORIGA repository (`src/server/`), together with theorems that
settle the specification's claims about it.

Conventions of the embedding:
* Python `str` values are modelled as `List Char` (`String.toList` images);
  Python's falsiness of the empty string is the emptiness of the list.
* Python `float` values are modelled as `ℚ`.  All numeric values reaching
  the code here are produced by decimal parsing and field arithmetic, so
  the rational model is exact for them.
* Python `None` is `Option.none`; `x or d` on an optional number is
  `pyOr` below (`None` and `0` are falsy).
* `list.sort(key=...)` (Timsort, a stable sort) is modelled by
  `List.insertionSort`, which is stable and sorts for a total transitive
  relation; the comparison is the lexicographic order on the key pair.
* The network, the file system and the clock are replaced by explicit
  parameters (page batches in completion order, a cache slot value, a
  remote-fetch outcome), and the FX resolver records the external effects
  it performs in an explicit trace.
-/

namespace Origa

/-! ### Python text primitives -/

/-- Substring test, Python's `needle in hay` on strings. -/
def hasSubstr : List Char → List Char → Bool
  | [], needle => needle.isEmpty
  | hay@(_ :: t), needle => needle.isPrefixOf hay || hasSubstr t needle

/-- Python `str.strip()`: drop leading and trailing whitespace. -/
def pyStrip (s : List Char) : List Char :=
  ((s.dropWhile Char.isWhitespace).reverse.dropWhile Char.isWhitespace).reverse

/-- Decimal digit run to a natural number. -/
def digitsToNat (ds : List Char) : Nat :=
  ds.foldl (fun n c => 10 * n + (c.toNat - 48)) 0

/-- Skip regex `\s*` (greedy). -/
def skipWs (cs : List Char) : List Char :=
  cs.dropWhile Char.isWhitespace

/-- Value of a matched number group `[0-9]+(?:\.[0-9]+)?`:
integer part plus fractional digits scaled down, as Python `float` of the
matched text (exact here, all such literals are short decimals). -/
def numVal (intPart fracPart : List Char) : ℚ :=
  (digitsToNat intPart : ℚ) + (digitsToNat fracPart : ℚ) / (10 ^ fracPart.length)

/-!  ### `src/server/utils.py`

`parse_price_range_cn` and `parse_moq_cn`.  The regexes are embedded as
explicit scanners.  For the patterns used by the source, greedy matching
without backtracking coincides with Python `re.search` semantics: every
quantified piece is followed either by the end of the pattern or by a
character class disjoint from the quantified one, so giving characters
back can never turn a failure into a success, and `re.search` tries
successive start positions left to right exactly as the scanners do. -/

/-- Match `[0-9]+(?:\.[0-9]+)?` at the head of the input; on success return
the numeric value of the match and the rest of the input. -/
def matchNumber (cs : List Char) : Option (ℚ × List Char) :=
  let ds := cs.takeWhile Char.isDigit
  let rest := cs.dropWhile Char.isDigit
  if ds.isEmpty then none
  else
    match rest with
    | '.' :: rest2 =>
        let fs := rest2.takeWhile Char.isDigit
        if fs.isEmpty then some ((digitsToNat ds : ℚ), rest)
        else some (numVal ds fs, rest2.dropWhile Char.isDigit)
    | _ => some ((digitsToNat ds : ℚ), rest)

/-- Match the whole two-number range pattern
`([0-9]+(?:\.[0-9]+)?)\s*[-~]\s*([0-9]+(?:\.[0-9]+)?)` at the head. -/
def matchRangeAt (cs : List Char) : Option (ℚ × ℚ) :=
  match matchNumber cs with
  | none => none
  | some (a, rest) =>
      match skipWs rest with
      | [] => none
      | c :: rest2 =>
          if c = '-' ∨ c = '~' then
            match matchNumber (skipWs rest2) with
            | some (b, _) => some (a, b)
            | none => none
          else none

/-- `re.search` of the range pattern: first start position that matches. -/
def searchRange : List Char → Option (ℚ × ℚ)
  | [] => none
  | cs@(_ :: t) =>
      match matchRangeAt cs with
      | some p => some p
      | none => searchRange t

/-- `re.search` of `([0-9]+(?:\.[0-9]+)?)\s*(?:起|起步|以上)?`: the optional
suffix constrains nothing, so this is the first number in the text. -/
def searchNumber : List Char → Option ℚ
  | [] => none
  | cs@(_ :: t) =>
      match matchNumber cs with
      | some (v, _) => some v
      | none => searchNumber t

/-- The two negotiable-price marker phrases (`PRICE_NEGOTIABLE_MARKERS`). -/
def negotiableMarkers : List (List Char) :=
  ["价格面议".toList, "面议".toList]

/-- `parse_price_range_cn` from `src/server/utils.py`. -/
def parsePriceRangeCn (text : List Char) : Option ℚ × Option ℚ :=
  if text.isEmpty then (none, none)
  else
    let txt := (pyStrip text).filter (fun c => ¬ (c = '￥' ∨ c = ','))
    if negotiableMarkers.any (fun m => hasSubstr txt m) then (none, none)
    else
      match searchRange txt with
      | some (a, b) => (some a, some b)
      | none =>
          match searchNumber txt with
          | some v => (some v, none)
          | none => (none, none)

/-- Case-insensitive match of one of the three-character MOQ labels
`MOQ` / `起订量` / `起批量` at the head; return the rest on success.
The three labels are pairwise incompatible at one position. -/
def stripMoqLabel (cs : List Char) : Option (List Char) :=
  match cs with
  | a :: b :: c :: rest =>
      if (a.toLower = 'm' ∧ b.toLower = 'o' ∧ c.toLower = 'q') ∨
         (a = '起' ∧ b = '订' ∧ c = '量') ∨
         (a = '起' ∧ b = '批' ∧ c = '量') then some rest
      else none
  | _ => none

/-- Match `(?:MOQ|起订量|起批量)\s*([0-9]+)` at the head. -/
def matchMoqLabeledAt (cs : List Char) : Option ℕ :=
  match stripMoqLabel cs with
  | none => none
  | some rest =>
      let ds := (skipWs rest).takeWhile Char.isDigit
      if ds.isEmpty then none else some (digitsToNat ds)

/-- `re.search` of the labeled MOQ pattern. -/
def searchMoqLabeled : List Char → Option ℕ
  | [] => none
  | cs@(_ :: t) =>
      match matchMoqLabeledAt cs with
      | some n => some n
      | none => searchMoqLabeled t

/-- The unit words of the bare MOQ pattern. -/
def moqUnitChars : List Char := "个件只套箱袋".toList

/-- Match `([0-9]+)\s*(?:个|件|只|套|箱|袋)` at the head. -/
def matchMoqUnitAt (cs : List Char) : Option ℕ :=
  let ds := cs.takeWhile Char.isDigit
  if ds.isEmpty then none
  else
    match skipWs (cs.dropWhile Char.isDigit) with
    | [] => none
    | u :: _ => if moqUnitChars.contains u then some (digitsToNat ds) else none

/-- `re.search` of the bare number-plus-unit MOQ pattern. -/
def searchMoqUnit : List Char → Option ℕ
  | [] => none
  | cs@(_ :: t) =>
      match matchMoqUnitAt cs with
      | some n => some n
      | none => searchMoqUnit t

/-- `parse_moq_cn` from `src/server/utils.py`: labeled pattern first,
then the bare pattern, else `None`. -/
def parseMoqCn (text : List Char) : Option ℕ :=
  if text.isEmpty then none
  else
    let txt := pyStrip text
    match searchMoqLabeled txt with
    | some n => some n
    | none => searchMoqUnit txt

/-! ### `src/server/scoring.py` -/

/-- The classifier rule table: threshold, weighted positive and negative
phrases (in their declaration order) and the trust weights.  The source
loads it from YAML and falls back to `DEFAULT_RULES`; the embedding takes
it as an explicit parameter, so theorems quantified over `Rules` cover
both the loaded and the built-in table. -/
structure Rules where
  threshold : ℚ
  positive : List (List Char × ℚ)
  negative : List (List Char × ℚ)
  auditedW : ℚ
  yearsW : ℚ

/-- `DEFAULT_RULES` from `src/server/scoring.py`. -/
def defaultRules : Rules where
  threshold := 3/5
  positive :=
    [("源头工厂".toList, 1), ("工厂直供".toList, 9/10), ("生产加工".toList, 4/5),
     ("自有工厂".toList, 1), ("支持OEM".toList, 3/5), ("支持ODM".toList, 3/5),
     ("可定制".toList, 2/5)]
  negative :=
    [("贸易".toList, -(3/5)), ("批发".toList, -(2/5)), ("代理".toList, -(3/5))]
  auditedW := 1/5
  yearsW := 1/50

/-- The five-tuple returned by `score_supplier`. -/
structure ScoreResult where
  isFactory : Bool
  confidence : ℚ
  trust : ℚ
  score : ℚ
  evidence : List (List Char)
deriving DecidableEq

/-- `max(0.0, min(1.0, x))`. -/
def clamp01 (x : ℚ) : ℚ := max 0 (min 1 x)

/-- Python `" ".join(tags)`. -/
def joinSpace : List (List Char) → List Char
  | [] => []
  | [t] => t
  | t :: ts => t ++ ' ' :: joinSpace ts

/-- Python `(years_active or 0)`: `None` and `0` are falsy and give `0`;
every other value — including a negative one — is returned unchanged. -/
def pyOrZeroInt : Option ℤ → ℤ
  | none => 0
  | some v => if v = 0 then 0 else v

/-- `score_supplier` from `src/server/scoring.py`, parameterized by the
rule table that `load_rules()` produced. -/
def scoreSupplier (rules : Rules) (title : List Char) (tags : List (List Char))
    (yearsActive : Option ℤ) (audited : Bool) : ScoreResult :=
  let text := title ++ ' ' :: joinSpace tags
  let posHits := rules.positive.filter (fun kw => hasSubstr text kw.1)
  let negHits := rules.negative.filter (fun kw => hasSubstr text kw.1)
  let fitScore := (posHits.map Prod.snd).sum + (negHits.map Prod.snd).sum
  let evidence := posHits.map (fun kw => '+' :: kw.1) ++ negHits.map Prod.fst
  let auditedBonus := if audited then rules.auditedW else 0
  let yearsBonus := rules.yearsW * (pyOrZeroInt yearsActive : ℚ)
  let fitNorm := clamp01 ((fitScore + 1) / 2)
  let confidence := clamp01 fitNorm
  let isFactory : Bool := rules.threshold ≤ confidence
  let score := clamp01 (confidence + auditedBonus + yearsBonus) * 100
  ⟨isFactory, confidence, auditedBonus, score, evidence⟩

/-! ### `src/server/models.py` -/

/-- `SupplierItem`.  The `captured_at` timestamp, `contacts` and `pack`
fields play no role in any claim-relevant computation and are omitted;
every other field is kept. -/
structure SupplierItem where
  title : List Char
  url : List Char
  imageUrls : List (List Char)
  priceMinCny : Option ℚ
  priceMaxCny : Option ℚ
  moq : Option ℕ
  shopName : Option (List Char)
  location : Option (List Char)
  tags : List (List Char)
  isFactory : Bool
  isFactoryConfidence : ℚ
  audited : Bool
  certifications : List (List Char)
  evidence : List (List Char)
  yearsActive : Option ℤ
  score : ℚ
deriving DecidableEq

/-- The `mode` field of `SearchParams`. -/
inductive SearchMode where
  | fast
  | precise
deriving DecidableEq

/-- `SearchParams` (the `SearchQuery` of the specification). -/
structure SearchParams where
  q : List Char
  mode : SearchMode := .fast
  pages : ℤ := 1
  onlyFactories : Bool := true
  auditedOnly : Bool := true
  minYears : ℤ := 0
  moqMax : Option ℕ := none
  priceMin : Option ℚ := none
  priceMax : Option ℚ := none
  region : Option (List Char) := none
  concurrency : ℤ := 3
  timeout : ℚ := 15
  proxy : Option (List Char) := none
  cookie : Option (List Char) := none
  online : Bool := true
  render : Bool := false
  offlineDemo : Bool := false

/-- One raw candidate dictionary as built by `parse_search_html` or the
offline samples.  Text fields use `[]` for both a missing key / `None`
value and the empty string: the source collapses the two with `or ''`
(`or []`) before use. -/
structure RawCard where
  title : List Char
  url : List Char
  imageUrls : List (List Char)
  priceText : List Char
  moqText : List Char
  shopName : Option (List Char)
  location : Option (List Char)
  tags : List (List Char)
  certifications : List (List Char)
  yearsActive : Option ℤ

/-! ### `src/server/search_1688.py` -/

/-- The two tags whose presence marks a listing as audited. -/
def auditedTags : List (List Char) :=
  ["实地认证".toList, "实力商家".toList]

/-- `normalize_item`, parameterized by the rule table used by
`score_supplier`. -/
def normalizeItem (rules : Rules) (raw : RawCard) : SupplierItem :=
  let pr := parsePriceRangeCn raw.priceText
  let moq := parseMoqCn raw.moqText
  let title := pyStrip raw.title
  let tags := raw.tags
  let audited : Bool := auditedTags.any (fun t => tags.contains t)
  let sc := scoreSupplier rules title tags raw.yearsActive audited
  { title := if title.isEmpty then raw.url else title
    url := raw.url
    imageUrls := raw.imageUrls
    priceMinCny := pr.1
    priceMaxCny := pr.2
    moq := moq
    shopName := raw.shopName
    location := raw.location
    tags := tags
    isFactory := sc.isFactory
    isFactoryConfidence := sc.confidence
    audited := audited
    certifications := raw.certifications
    evidence := sc.evidence
    yearsActive := raw.yearsActive
    score := sc.score }

/-- Python `x or d` on an optional number: `None` and `0` are falsy. -/
def pyOr (x : Option ℚ) (d : ℚ) : ℚ :=
  match x with
  | none => d
  | some v => if v = 0 then d else v

/-- The sort key of both delivery modes:
`(-(x.score or 0.0), x.price_min_cny or 1e12)`.  `score or 0.0` is the
identity on every rational, so it is written directly. -/
def sortKey (it : SupplierItem) : ℚ × ℚ :=
  (-it.score, pyOr it.priceMinCny (10 ^ 12))

/-- Lexicographic comparison of Python key tuples. -/
def keyLe (x y : ℚ × ℚ) : Prop :=
  x.1 < y.1 ∨ (x.1 = y.1 ∧ x.2 ≤ y.2)

/-- The record ordering used by `list.sort(key=sortKey)`. -/
def itemLe (a b : SupplierItem) : Prop :=
  keyLe (sortKey a) (sortKey b)

instance : DecidableRel itemLe := by
  unfold itemLe keyLe
  infer_instance

instance : IsTotal SupplierItem itemLe where
  total a b := by
    unfold itemLe keyLe
    rcases lt_trichotomy (sortKey a).1 (sortKey b).1 with h | h | h
    · exact Or.inl (Or.inl h)
    · rcases le_total (sortKey a).2 (sortKey b).2 with h2 | h2
      · exact Or.inl (Or.inr ⟨h, h2⟩)
      · exact Or.inr (Or.inr ⟨h.symm, h2⟩)
    · exact Or.inr (Or.inl h)

instance : IsTrans SupplierItem itemLe where
  trans a b c hab hbc := by
    unfold itemLe keyLe at *
    rcases hab with h1 | ⟨h1, h1'⟩
    · rcases hbc with h2 | ⟨h2, _⟩
      · exact Or.inl (h1.trans h2)
      · exact Or.inl (h2 ▸ h1)
    · rcases hbc with h2 | ⟨h2, h2'⟩
      · exact Or.inl (h1 ▸ h2)
      · exact Or.inr ⟨h1.trans h2, h1'.trans h2'⟩

/-- The `only_factories` clause of the filter. -/
def passFactories (p : SearchParams) (it : SupplierItem) : Bool :=
  !(p.onlyFactories && !it.isFactory)

/-- The `audited_only` clause of the filter. -/
def passAudited (p : SearchParams) (it : SupplierItem) : Bool :=
  !(p.auditedOnly && !it.audited)

/-- The MOQ clause: `moq_max is not None and it.moq is not None and
it.moq > params.moq_max` excludes. -/
def passMoq (p : SearchParams) (it : SupplierItem) : Bool :=
  match p.moqMax, it.moq with
  | some mx, some m => decide (m ≤ mx)
  | _, _ => true

/-- The lower price clause: `(it.price_min_cny or 0) < params.price_min`
excludes. -/
def passPriceMin (p : SearchParams) (it : SupplierItem) : Bool :=
  match p.priceMin with
  | none => true
  | some pm => decide (pm ≤ pyOr it.priceMinCny 0)

/-- The upper price clause:
`(it.price_max_cny or it.price_min_cny or 0) > params.price_max`
excludes. -/
def passPriceMax (p : SearchParams) (it : SupplierItem) : Bool :=
  match p.priceMax with
  | none => true
  | some px => decide (pyOr it.priceMaxCny (pyOr it.priceMinCny 0) ≤ px)

/-- The full filter predicate of `_apply_filters` (the `continue` chain:
a record is kept iff every clause passes). -/
def passesFilter (p : SearchParams) (it : SupplierItem) : Bool :=
  passFactories p it && passAudited p it && passMoq p it &&
    passPriceMin p it && passPriceMax p it

/-- `_apply_filters` from `src/server/search_1688.py`: keep the records
that pass every clause, then stable-sort them by `sortKey`. -/
def applyFilters (p : SearchParams) (items : List SupplierItem) : List SupplierItem :=
  List.insertionSort itemLe (items.filter (passesFilter p))

/-- The online batch path of `search_1688_list` (lines 87–112): the pages'
normalized records are concatenated in completion order, `_apply_filters`
runs on the whole set, and the result is sorted once more with the same
key. -/
def batchList (p : SearchParams) (pages : List (List SupplierItem)) : List SupplierItem :=
  List.insertionSort itemLe (applyFilters p pages.flatten)

/-- The online stream path of `search_1688_stream` (lines 128–145): as
each page's task completes, `_apply_filters` runs on that page's records
alone and the results are emitted immediately, in that order. -/
def streamList (p : SearchParams) (pages : List (List SupplierItem)) : List SupplierItem :=
  (pages.map (applyFilters p)).flatten

/-! ### `src/server/fx.py`

`get_cny_rub_rate`, with the ambient world made explicit: `cached` is the
value `load_cached_rate()` would return (`none` for a missing, expired or
unreadable cache file), `remote` is the outcome `fetch_cbr_cny_rub_rate()`
would produce, and the returned trace lists the external accesses the
call performed, in order. -/

/-- The `source` argument (`'cbr'` or `'manual'`). -/
inductive FxSource where
  | cbr
  | manual
deriving DecidableEq

/-- The errors `get_cny_rub_rate` can raise. -/
inductive FxError where
  | manualMissing
  | remoteFailure
deriving DecidableEq

/-- External accesses of the FX resolver. -/
inductive FxEffect where
  | cacheRead
  | remoteCall
  | cacheWrite
deriving DecidableEq

/-- `get_cny_rub_rate` from `src/server/fx.py`. -/
def getCnyRubRate (source : FxSource) (manual : Option ℚ) (cached : Option ℚ)
    (remote : Except Unit ℚ) : Except FxError ℚ × List FxEffect :=
  match source with
  | .manual =>
      match manual with
      | none => (.error .manualMissing, [])
      | some r => (.ok r, [])
  | .cbr =>
      match cached with
      | some c => (.ok c, [.cacheRead])
      | none =>
          match remote with
          | .ok r => (.ok r, [.cacheRead, .remoteCall, .cacheWrite])
          | .error _ => (.error .remoteFailure, [.cacheRead, .remoteCall])

/-! ### `src/server/ddp.py` and `DDPInput` / `DDPResult` -/

/-- The `mode` field of a DDP request. -/
inductive ShipMode where
  | air
  | airExpress
  | seaLcl
  | railLcl
  | fcl20
  | fcl40
  | fcl40hq
deriving DecidableEq

/-- `DDPInput` from `src/server/models.py`.  The model (and the API layer)
puts no bound on any numeric field: `qty` is an arbitrary integer. -/
structure DDPInput where
  exwOrFobCny : ℚ
  qty : ℤ
  cbmTotal : Option ℚ := none
  gwTotal : Option ℚ := none
  dutyRatePct : ℚ
  vatRatePct : ℚ
  freightTotalCny : ℚ := 0
  freightTotalRub : ℚ := 0
  inlandCnCny : ℚ := 0
  inlandRuRub : ℚ := 0
  insurancePct : ℚ := 0
  mode : ShipMode := .seaLcl
  fxSource : FxSource := .cbr
  fxCnyRub : Option ℚ := none

/-- `DDPResult` (without the timestamp). -/
structure DDPResult where
  fxUsedCnyRub : ℚ
  goodsRub : ℚ
  freightRub : ℚ
  inlandRub : ℚ
  insuranceRub : ℚ
  dutyRub : ℚ
  vatRub : ℚ
  totalRub : ℚ
  perUnitRub : ℚ
  mode : ShipMode
deriving DecidableEq

/-- Round-half-even to an integer, the rounding Python's builtin `round`
uses; on the (tie-free) values of this development it agrees exactly with
`round` on the corresponding binary floats. -/
def rhe (q : ℚ) : ℤ :=
  if q - ⌊q⌋ < 1/2 then ⌊q⌋
  else if 1/2 < q - ⌊q⌋ then ⌊q⌋ + 1
  else if ⌊q⌋ % 2 = 0 then ⌊q⌋ else ⌊q⌋ + 1

/-- `round2` from `src/server/ddp.py`: `round(x, 2)`. -/
def round2 (x : ℚ) : ℚ := (rhe (x * 100) : ℚ) / 100

/-- The arithmetic body of `calculate_ddp_async` (lines 13–38), a pure
function of the resolved rate and the request. -/
def ddpCompute (rate : ℚ) (req : DDPInput) : DDPResult :=
  let goodsCny := req.exwOrFobCny * (req.qty : ℚ)
  let goodsRub := goodsCny * rate
  let freightRub := req.freightTotalRub + req.freightTotalCny * rate
  let inlandRub := req.inlandRuRub + req.inlandCnCny * rate
  let insuranceRub := goodsRub * (req.insurancePct / 100)
  let dutyRub := goodsRub * (req.dutyRatePct / 100)
  let vatRub := (goodsRub + dutyRub + freightRub) * (req.vatRatePct / 100)
  let totalRub := goodsRub + freightRub + inlandRub + insuranceRub + dutyRub + vatRub
  let perUnitRub := totalRub / ((max 1 req.qty : ℤ) : ℚ)
  { fxUsedCnyRub := round2 rate
    goodsRub := round2 goodsRub
    freightRub := round2 freightRub
    inlandRub := round2 inlandRub
    insuranceRub := round2 insuranceRub
    dutyRub := round2 dutyRub
    vatRub := round2 vatRub
    totalRub := round2 totalRub
    perUnitRub := round2 perUnitRub
    mode := req.mode }

/-- `calculate_ddp_async` from `src/server/ddp.py`: resolve the rate via
`get_cny_rub_rate`, propagate its error if any, else run the arithmetic.
The effect trace of the resolution is returned alongside. -/
def calculateDdp (req : DDPInput) (cached : Option ℚ) (remote : Except Unit ℚ) :
    Except FxError DDPResult × List FxEffect :=
  match getCnyRubRate req.fxSource req.fxCnyRub cached remote with
  | (.error e, effs) => (.error e, effs)
  | (.ok rate, effs) => (.ok (ddpCompute rate req), effs)

/-! ### Spec-side ordering (for the refinement claims C1/C3)

The specification orders batch output by `(−score, price_min_cny or +∞)`.
This definition follows the spec's words (missing price is `⊤`), to be
compared with the code's `sortKey`, whose sentinel is the finite `1e12`
and whose `or` is Python truthiness. -/

/-- The price component the specification prescribes: `+∞` when absent. -/
def specPrice (it : SupplierItem) : WithTop ℚ :=
  match it.priceMinCny with
  | none => ⊤
  | some v => (v : WithTop ℚ)

/-- The record ordering the specification prescribes for batch output. -/
def specLe (a b : SupplierItem) : Prop :=
  -a.score < -b.score ∨ (-a.score = -b.score ∧ specPrice a ≤ specPrice b)

instance : DecidableRel specLe := by
  unfold specLe
  infer_instance

/-- The data-model invariant of the specification (§3): when both price
bounds are present, the lower one is at most the upper one. -/
def recPriceInvariant (it : SupplierItem) : Prop :=
  ∀ x y, it.priceMinCny = some x → it.priceMaxCny = some y → x ≤ y

/-! ### Spec-side landed-cost formulas (§4.7), for the refinement claim C5 -/

/-- Goods value in target currency: unit price × quantity × rate. -/
def specGoods (rate : ℚ) (req : DDPInput) : ℚ :=
  req.exwOrFobCny * (req.qty : ℚ) * rate

/-- Freight: freight-in-target-currency + freight-in-source-currency × rate. -/
def specFreight (rate : ℚ) (req : DDPInput) : ℚ :=
  req.freightTotalRub + req.freightTotalCny * rate

/-- Inland: inland-in-target + inland-in-source × rate. -/
def specInland (rate : ℚ) (req : DDPInput) : ℚ :=
  req.inlandRuRub + req.inlandCnCny * rate

/-- Insurance: goods × insurance%. -/
def specInsurance (rate : ℚ) (req : DDPInput) : ℚ :=
  specGoods rate req * (req.insurancePct / 100)

/-- Duty: goods × duty%. -/
def specDuty (rate : ℚ) (req : DDPInput) : ℚ :=
  specGoods rate req * (req.dutyRatePct / 100)

/-- VAT: (goods + duty + freight) × VAT%. -/
def specVat (rate : ℚ) (req : DDPInput) : ℚ :=
  (specGoods rate req + specDuty rate req + specFreight rate req) * (req.vatRatePct / 100)

/-- Total: sum of all components. -/
def specTotal (rate : ℚ) (req : DDPInput) : ℚ :=
  specGoods rate req + specFreight rate req + specInland rate req + specInsurance rate req +
    specDuty rate req + specVat rate req

/-- Per-unit: total / max(1, quantity). -/
def specPerUnit (rate : ℚ) (req : DDPInput) : ℚ :=
  specTotal rate req / ((max 1 req.qty : ℤ) : ℚ)

/-! ### Concrete inputs used by counterexamples and witnesses -/

/-- A query with every filter switched off or unset. -/
def pNoFilters : SearchParams where
  q := []
  onlyFactories := false
  auditedOnly := false

/-- A raw card shaped exactly like the cards `parse_search_html` builds
(only title and url populated), with the repository's own sample
trading-company title. -/
def rawTrade : RawCard where
  title := "贸易公司 批发 帽子".toList
  url := "https://detail.1688.com/offer/456.html".toList
  imageUrls := []
  priceText := []
  moqText := []
  shopName := none
  location := none
  tags := []
  certifications := []
  yearsActive := none

/-- Like `rawTrade`, with the repository's sample factory title. -/
def rawFactory : RawCard where
  title := "源头工厂 塑料瓶 OEM ODM".toList
  url := "https://detail.1688.com/offer/123.html".toList
  imageUrls := []
  priceText := []
  moqText := []
  shopName := none
  location := none
  tags := []
  certifications := []
  yearsActive := none

/-- The normalized record of `rawTrade` (its score comes out 0). -/
def itemTrade : SupplierItem := normalizeItem defaultRules rawTrade

/-- The normalized record of `rawFactory` (its score comes out 100). -/
def itemFactory : SupplierItem := normalizeItem defaultRules rawFactory

/-- A record with an equal score and a price above the code's `1e12`
sort sentinel. -/
def itemBigPrice : SupplierItem where
  title := "a".toList
  url := []
  imageUrls := []
  priceMinCny := some (2 * 10 ^ 12)
  priceMaxCny := none
  moq := none
  shopName := none
  location := none
  tags := []
  isFactory := false
  isFactoryConfidence := 0
  audited := false
  certifications := []
  evidence := []
  yearsActive := none
  score := 50

/-- A record with the same score and no price at all. -/
def itemNoPrice : SupplierItem where
  title := "b".toList
  url := []
  imageUrls := []
  priceMinCny := none
  priceMaxCny := none
  moq := none
  shopName := none
  location := none
  tags := []
  isFactory := false
  isFactoryConfidence := 0
  audited := false
  certifications := []
  evidence := []
  yearsActive := none
  score := 50

/-- A raw card whose price text is the reversed range `5-2`. -/
def rawReversed : RawCard where
  title := "测试".toList
  url := "u".toList
  imageUrls := []
  priceText := "5-2".toList
  moqText := []
  shopName := none
  location := none
  tags := []
  certifications := []
  yearsActive := none

/-- A raw card whose price text is the ordered range `1-2`. -/
def rawOrdered : RawCard where
  title := "测试".toList
  url := "u".toList
  imageUrls := []
  priceText := "1-2".toList
  moqText := []
  shopName := none
  location := none
  tags := []
  certifications := []
  yearsActive := none

/-- A landed-cost request with a negative quantity and a manual rate. -/
def reqNegQty : DDPInput where
  exwOrFobCny := 10
  qty := -5
  dutyRatePct := 5
  vatRatePct := 13
  freightTotalRub := 2000
  fxSource := .manual
  fxCnyRub := some (25/2)

/-- The specification's worked landed-cost example:
`unit_price=10 CNY, qty=100, duty=5%, vat=13%, freight=2000 RUB,
inland=0, insurance=0%, rate=12.5`. -/
def exampleDdpReq : DDPInput where
  exwOrFobCny := 10
  qty := 100
  dutyRatePct := 5
  vatRatePct := 13
  freightTotalRub := 2000
  fxSource := .manual
  fxCnyRub := some (25/2)

/-- A record with `price_min_cny = 0` and a present upper price bound. -/
def itemZeroMin : SupplierItem where
  title := "z".toList
  url := []
  imageUrls := []
  priceMinCny := some 0
  priceMaxCny := some 50
  moq := none
  shopName := none
  location := none
  tags := []
  isFactory := false
  isFactoryConfidence := 0
  audited := false
  certifications := []
  evidence := []
  yearsActive := none
  score := 0

/-- A query that only sets an upper price bound of 10. -/
def pMax10 : SearchParams where
  q := []
  priceMax := some 10

/-- A record with no price information at all. -/
def itemNoPrices : SupplierItem where
  title := "n".toList
  url := []
  imageUrls := []
  priceMinCny := none
  priceMaxCny := none
  moq := none
  shopName := none
  location := none
  tags := []
  isFactory := false
  isFactoryConfidence := 0
  audited := false
  certifications := []
  evidence := []
  yearsActive := none
  score := 0

/-- A query with both price bounds set (lower 1, upper 10). -/
def pBothBounds : SearchParams where
  q := []
  priceMin := some 1
  priceMax := some 10

/-! ## Helper lemmas -/

theorem clamp01_nonneg (x : ℚ) : 0 ≤ clamp01 x := le_max_left 0 _

theorem clamp01_le_one (x : ℚ) : clamp01 x ≤ 1 := max_le (by norm_num) (min_le_left 1 x)

theorem itemTrade_score : itemTrade.score = 0 := by
  have hp : defaultRules.positive.filter
      (fun kw => hasSubstr ("贸易公司 批发 帽子".toList ++ ' ' :: joinSpace []) kw.1) = [] := rfl
  have hn : defaultRules.negative.filter
      (fun kw => hasSubstr ("贸易公司 批发 帽子".toList ++ ' ' :: joinSpace []) kw.1)
      = [("贸易".toList, -(3/5)), ("批发".toList, -(2/5))] := rfl
  show (scoreSupplier defaultRules ("贸易公司 批发 帽子".toList) [] none false).score = 0
  simp only [scoreSupplier, hp, hn]
  norm_num [clamp01, pyOrZeroInt]

theorem itemFactory_score : itemFactory.score = 100 := by
  have hp : defaultRules.positive.filter
      (fun kw => hasSubstr ("源头工厂 塑料瓶 OEM ODM".toList ++ ' ' :: joinSpace []) kw.1)
      = [("源头工厂".toList, 1)] := rfl
  have hn : defaultRules.negative.filter
      (fun kw => hasSubstr ("源头工厂 塑料瓶 OEM ODM".toList ++ ' ' :: joinSpace []) kw.1) = [] := rfl
  show (scoreSupplier defaultRules ("源头工厂 塑料瓶 OEM ODM".toList) [] none false).score = 100
  simp only [scoreSupplier, hp, hn]
  norm_num [clamp01, pyOrZeroInt]

theorem itemTrade_price : itemTrade.priceMinCny = none := rfl

theorem itemFactory_price : itemFactory.priceMinCny = none := rfl

theorem not_itemLe_trade_factory : ¬ itemLe itemTrade itemFactory := by
  norm_num [itemLe, keyLe, sortKey, itemTrade_score, itemFactory_score,
    itemTrade_price, itemFactory_price, pyOr]

/-! ## Claim theorems -/

/-- C1, counterexample: the claim states that stream mode emits each
page's records in their within-page extraction order, only with
filtered-out records removed — i.e. that the per-page emission equals
`List.filter` of the page.  On the page `[itemTrade, itemFactory]`
(extraction order, both passing the filter) the stream emits
`[itemFactory, itemTrade]`: `_apply_filters` re-sorts the page by
`(−score, price)` before emission, reversing the extraction order. -/
theorem stream_counterexample :
    streamList pNoFilters [[itemTrade, itemFactory]] = [itemFactory, itemTrade] ∧
    List.filter (passesFilter pNoFilters) [itemTrade, itemFactory] = [itemTrade, itemFactory] ∧
    itemTrade ≠ itemFactory := by
  have hfil : List.filter (passesFilter pNoFilters) [itemTrade, itemFactory]
      = [itemTrade, itemFactory] := rfl
  refine ⟨?_, hfil, ?_⟩
  · simp only [streamList, applyFilters, List.map, List.flatten, hfil,
      List.insertionSort, List.orderedInsert, List.append_nil]
    rw [if_neg not_itemLe_trade_factory]
  · intro h
    have ht := congrArg SupplierItem.title h
    revert ht
    decide

/-- C1, amended: in stream mode each completed page is emitted as
`_apply_filters` of that page's records — a permutation of the filtered
within-page records, sorted by the key `(−score, price_min_cny or
10^12)` — and the emitted sequence is the concatenation of the per-page
results in completion order (no cross-page sort occurs). -/
theorem stream_per_page (p : SearchParams) (pages : List (List SupplierItem))
    (pg : List SupplierItem) :
    streamList p pages = (pages.map (applyFilters p)).flatten ∧
    (applyFilters p pg).Perm (pg.filter (passesFilter p)) ∧
    (applyFilters p pg).Sorted itemLe :=
  ⟨rfl, List.perm_insertionSort itemLe _, List.sorted_insertionSort itemLe _⟩

/-- C2, counterexample: the claim states that normalized records always
satisfy `price_min ≤ price_max` when both are present, even for a
reversed range string.  For the raw card whose price text is `5-2`,
normalization yields `price_min = 5 > 2 = price_max`. -/
theorem price_invariant_counterexample :
    (normalizeItem defaultRules rawReversed).priceMinCny = some 5 ∧
    (normalizeItem defaultRules rawReversed).priceMaxCny = some 2 ∧
    ¬ (5 : ℚ) ≤ 2 :=
  ⟨by decide, by decide, by norm_num⟩

/-- C2, amended: normalization copies the parsed price pair into the
record exactly as given — so the invariant `price_min ≤ price_max`
holds precisely when the parsed pair is ordered, and a reversed range
is preserved reversed. -/
theorem price_bounds_as_parsed (rules : Rules) (raw : RawCard) (a b : ℚ)
    (h : parsePriceRangeCn raw.priceText = (some a, some b)) :
    (normalizeItem rules raw).priceMinCny = some a ∧
    (normalizeItem rules raw).priceMaxCny = some b ∧
    (a ≤ b → recPriceInvariant (normalizeItem rules raw)) := by
  have h1 : (normalizeItem rules raw).priceMinCny = (parsePriceRangeCn raw.priceText).1 := rfl
  have h2 : (normalizeItem rules raw).priceMaxCny = (parsePriceRangeCn raw.priceText).2 := rfl
  rw [h] at h1 h2
  refine ⟨h1, h2, fun hab x y hx hy => ?_⟩
  rw [h1] at hx
  rw [h2] at hy
  cases hx
  cases hy
  exact hab

/-- Witness for `price_bounds_as_parsed` at the ordered range `1-2`. -/
theorem price_bounds_as_parsed_witness :
    (normalizeItem defaultRules rawOrdered).priceMinCny = some 1 ∧
    (normalizeItem defaultRules rawOrdered).priceMaxCny = some 2 ∧
    recPriceInvariant (normalizeItem defaultRules rawOrdered) := by
  obtain ⟨h1, h2, h3⟩ := price_bounds_as_parsed defaultRules rawOrdered 1 2 (by decide)
  exact ⟨h1, h2, h3 (by norm_num)⟩

/-- C3, counterexample: the claim states that in the batch-mode result a
record with no price sorts after every equal-score record that has a
price (missing price treated as `+∞`, the order `specLe`).  The code's
sentinel is the finite `1e12`: on two equal-score records, one priced
`2·10^12` and one unpriced, batch mode puts the unpriced record first,
so the output is not `specLe`-sorted. -/
theorem batch_counterexample :
    batchList pNoFilters [[itemBigPrice, itemNoPrice]] = [itemNoPrice, itemBigPrice] ∧
    itemNoPrice.priceMinCny = none ∧
    itemBigPrice.priceMinCny = some (2 * 10 ^ 12) ∧
    itemNoPrice.score = itemBigPrice.score ∧
    ¬ (batchList pNoFilters [[itemBigPrice, itemNoPrice]]).Sorted specLe := by
  have h1 : ¬ itemLe itemBigPrice itemNoPrice := by
    norm_num [itemLe, keyLe, sortKey, itemBigPrice, itemNoPrice, pyOr]
  have h2 : itemLe itemNoPrice itemBigPrice := by
    norm_num [itemLe, keyLe, sortKey, itemBigPrice, itemNoPrice, pyOr]
  have hout : batchList pNoFilters [[itemBigPrice, itemNoPrice]]
      = [itemNoPrice, itemBigPrice] := by
    have hfil : List.filter (passesFilter pNoFilters) [itemBigPrice, itemNoPrice]
        = [itemBigPrice, itemNoPrice] := rfl
    simp only [batchList, applyFilters, List.flatten, List.append_nil, hfil,
      List.insertionSort, List.orderedInsert]
    rw [if_neg h1]
    simp only [List.insertionSort, List.orderedInsert]
    rw [if_pos h2]
  refine ⟨hout, rfl, rfl, rfl, ?_⟩
  rw [hout]
  simp only [List.sorted_cons, List.mem_singleton, forall_eq]
  intro h
  rcases h.1 with h' | ⟨_, h'⟩
  · norm_num [itemBigPrice, itemNoPrice] at h'
  · rw [show specPrice itemNoPrice = ⊤ from rfl] at h'
    rw [show specPrice itemBigPrice = ((2 * 10 ^ 12 : ℚ) : WithTop ℚ) from rfl] at h'
    exact WithTop.coe_ne_top (top_le_iff.1 h')

/-- C3, amended: the batch-mode result is sorted by `itemLe`, the
lexicographic order on `(−score, price_min_cny or 10^12)` — non-increasing
score, ties non-decreasing in effective price, where a missing (or zero)
`price_min_cny` counts as the sentinel `10^12` rather than `+∞` — and it
is a permutation of the filtered record set. -/
theorem batch_sorted_perm (p : SearchParams) (pages : List (List SupplierItem)) :
    (batchList p pages).Sorted itemLe ∧
    (batchList p pages).Perm (pages.flatten.filter (passesFilter p)) :=
  ⟨List.sorted_insertionSort itemLe _,
   (List.perm_insertionSort itemLe _).trans (List.perm_insertionSort itemLe _)⟩

/-- C4, counterexample: the claim states the landed-cost calculator never
produces a result for a negative quantity.  For `reqNegQty` (quantity
−5, manual rate 12.5) the calculator returns a computed result — no
rejection happens anywhere — with per-unit cost `round2(total / max(1,
−5)) = round2(total / 1) = 1518.44`. -/
theorem ddp_negative_qty_counterexample :
    reqNegQty.qty < 0 ∧
    calculateDdp reqNegQty none (.error ()) = (.ok (ddpCompute (25/2) reqNegQty), []) ∧
    (ddpCompute (25/2) reqNegQty).perUnitRub = 1518.44 := by
  refine ⟨by decide, rfl, ?_⟩
  norm_num [ddpCompute, reqNegQty, round2, rhe]

/-- C4, amended: a negative quantity is not rejected (non-numeric input
cannot reach the calculator in the typed model): with a manual rate
present the calculator returns a computed result, and because the
per-unit denominator is `max(1, qty) = 1`, the per-unit cost equals the
total. -/
theorem ddp_negative_qty_computes (req : DDPInput) (r : ℚ) (cached : Option ℚ)
    (remote : Except Unit ℚ) (h1 : req.fxSource = .manual) (h2 : req.fxCnyRub = some r)
    (h3 : req.qty < 0) :
    calculateDdp req cached remote = (.ok (ddpCompute r req), []) ∧
    (ddpCompute r req).perUnitRub = (ddpCompute r req).totalRub := by
  constructor
  · simp [calculateDdp, getCnyRubRate, h1, h2]
  · have hmax : (max 1 req.qty) = 1 := by omega
    simp [ddpCompute, hmax]

/-- Witness for `ddp_negative_qty_computes` at `reqNegQty`. -/
theorem ddp_negative_qty_computes_witness :
    calculateDdp reqNegQty none (.error ()) = (.ok (ddpCompute (25/2) reqNegQty), []) ∧
    (ddpCompute (25/2) reqNegQty).perUnitRub = (ddpCompute (25/2) reqNegQty).totalRub :=
  ddp_negative_qty_computes reqNegQty (25/2) none (.error ()) rfl rfl (by decide)

/-- C5: for every resolved rate and request, the calculator returns
exactly the specification's formulas (§4.7), each component rounded to
two decimals; and on the specification's worked example (`unit_price=10`,
`qty=100`, `duty=5%`, `vat=13%`, `freight=2000` target-currency,
`inland=0`, `insurance=0%`, `rate=12.5`) the exact two-decimal outputs
are `goods=12500.00`, `freight=2000.00`, `duty=625.00`, `vat=1966.25`,
`total=17091.25`, `per_unit=170.91`. -/
theorem ddp_formulas_and_example :
    (∀ (rate : ℚ) (req : DDPInput),
      ddpCompute rate req =
        { fxUsedCnyRub := round2 rate
          goodsRub := round2 (specGoods rate req)
          freightRub := round2 (specFreight rate req)
          inlandRub := round2 (specInland rate req)
          insuranceRub := round2 (specInsurance rate req)
          dutyRub := round2 (specDuty rate req)
          vatRub := round2 (specVat rate req)
          totalRub := round2 (specTotal rate req)
          perUnitRub := round2 (specPerUnit rate req)
          mode := req.mode }) ∧
    ddpCompute (25/2) exampleDdpReq =
      { fxUsedCnyRub := 12.5
        goodsRub := 12500
        freightRub := 2000
        inlandRub := 0
        insuranceRub := 0
        dutyRub := 625
        vatRub := 1966.25
        totalRub := 17091.25
        perUnitRub := 170.91
        mode := .seaLcl } := by
  constructor
  · intro rate req
    rfl
  · norm_num [ddpCompute, exampleDdpReq, round2, rhe]

/-- C6: for every rule table (loaded or default), title, tag list
(including the empty one), years-active value (including negative and
absent) and audited flag, the classifier's confidence lies in `[0, 1]`
and its composite score lies in `[0, 100]`. -/
theorem classifier_bounds (rules : Rules) (title : List Char) (tags : List (List Char))
    (years : Option ℤ) (audited : Bool) :
    0 ≤ (scoreSupplier rules title tags years audited).confidence ∧
    (scoreSupplier rules title tags years audited).confidence ≤ 1 ∧
    0 ≤ (scoreSupplier rules title tags years audited).score ∧
    (scoreSupplier rules title tags years audited).score ≤ 100 := by
  unfold scoreSupplier
  refine ⟨clamp01_nonneg _, clamp01_le_one _, mul_nonneg (clamp01_nonneg _) (by norm_num), ?_⟩
  calc clamp01 _ * 100 ≤ 1 * 100 := mul_le_mul_of_nonneg_right (clamp01_le_one _) (by norm_num)
  _ = 100 := by norm_num

/-- C7, counterexample: the claim states the classifier scores
`years_active = −k` exactly like `years_active = 0`.  With the default
rule table, empty title and tags and `audited = false`, the composite
score at `years_active = −10` is 30 while at `years_active = 0` it is
50: `(years_active or 0)` in the source zeroes only `None` and `0`, so a
negative value feeds through with its negative years bonus. -/
theorem years_counterexample :
    (scoreSupplier defaultRules [] [] (some (-10)) false).score = 30 ∧
    (scoreSupplier defaultRules [] [] (some 0) false).score = 50 ∧
    ¬ (30 : ℚ) = 50 := by
  have hp : defaultRules.positive.filter
      (fun kw => hasSubstr (([] : List Char) ++ ' ' :: joinSpace []) kw.1) = [] := rfl
  have hn : defaultRules.negative.filter
      (fun kw => hasSubstr (([] : List Char) ++ ' ' :: joinSpace []) kw.1) = [] := rfl
  refine ⟨?_, ?_, by norm_num⟩ <;>
  · simp only [scoreSupplier, hp, hn]
    norm_num [clamp01, pyOrZeroInt, defaultRules]

/-- C7, amended: the classifier treats an absent years-active as 0 (the
whole result at `None` equals the result at `0`); the `is_factory`
verdict never depends on years-active; and for any supplied
years-active value `y` — negative included — the composite score is
`clamp(confidence + audited_bonus + years_weight·y, 0, 1) · 100`, so a
negative `y` is fed through, not zeroed. -/
theorem years_none_as_zero (rules : Rules) (title : List Char) (tags : List (List Char))
    (audited : Bool) (y : ℤ) :
    scoreSupplier rules title tags none audited = scoreSupplier rules title tags (some 0) audited ∧
    (scoreSupplier rules title tags (some y) audited).isFactory
      = (scoreSupplier rules title tags none audited).isFactory ∧
    (scoreSupplier rules title tags (some y) audited).score
      = clamp01 ((scoreSupplier rules title tags (some y) audited).confidence
          + (if audited then rules.auditedW else 0) + rules.yearsW * (y : ℚ)) * 100 := by
  refine ⟨by simp [scoreSupplier, pyOrZeroInt], by simp [scoreSupplier], ?_⟩
  by_cases hy : y = 0
  · subst hy
    simp [scoreSupplier, pyOrZeroInt]
  · simp [scoreSupplier, pyOrZeroInt, hy]

/-- C8: with `source = manual`, the FX resolver performs no cache read,
no cache write and no remote call (its effect trace is empty in both
branches); it fails with the configuration error when no manual rate is
supplied and returns exactly the supplied rate otherwise. -/
theorem fx_manual_no_side_effects (cached : Option ℚ) (remote : Except Unit ℚ) :
    getCnyRubRate .manual none cached remote = (.error .manualMissing, []) ∧
    ∀ r : ℚ, getCnyRubRate .manual (some r) cached remote = (.ok r, []) :=
  ⟨rfl, fun _ => rfl⟩

/-- C9: the filter-and-rank operation `_apply_filters` is idempotent:
filtering keeps every record of an already-filtered list, and the
stable sort leaves an already-sorted list unchanged. -/
theorem filter_rank_idempotent (p : SearchParams) (items : List SupplierItem) :
    applyFilters p (applyFilters p items) = applyFilters p items := by
  unfold applyFilters
  rw [List.filter_eq_self.mpr, (List.sorted_insertionSort itemLe _).insertionSort_eq]
  intro a ha
  exact List.of_mem_filter ((List.mem_insertionSort itemLe).1 ha)

/-- C10, counterexample: the claim states a record whose `price_min_cny`
is absent or 0 passes every `price_max` bound ≥ 0.  The record
`itemZeroMin` has `price_min_cny = 0` but `price_max_cny = 50`, and the
upper-bound check uses `price_max_cny or price_min_cny or 0 = 50`, so
the record fails the bound `price_max = 10 ≥ 0`. -/
theorem missing_price_counterexample :
    itemZeroMin.priceMinCny = some 0 ∧
    pMax10.priceMax = some 10 ∧
    (0 : ℚ) ≤ 10 ∧
    passPriceMax pMax10 itemZeroMin = false := by
  refine ⟨rfl, rfl, by norm_num, ?_⟩
  norm_num [passPriceMax, pMax10, itemZeroMin, pyOr]

/-- C10, amended: a record whose `price_min_cny` is absent or 0 is
excluded whenever the query sets `price_min > 0`, and it passes every
`price_max` bound ≥ 0 provided `price_max_cny` is also absent or 0
(when `price_max_cny` is present and nonzero, the upper-bound check
uses it instead). -/
theorem missing_price_filter (it : SupplierItem) (p : SearchParams) (pm px : ℚ)
    (hmin : it.priceMinCny = none ∨ it.priceMinCny = some 0) :
    (p.priceMin = some pm → 0 < pm → passesFilter p it = false) ∧
    (p.priceMax = some px → 0 ≤ px → (it.priceMaxCny = none ∨ it.priceMaxCny = some 0) →
      passPriceMax p it = true) := by
  have h0 : pyOr it.priceMinCny 0 = 0 := by
    rcases hmin with h | h <;> simp [pyOr, h]
  constructor
  · intro h1 h2
    have hlo : passPriceMin p it = false := by
      simp only [passPriceMin, h1, h0, decide_eq_false_iff_not, not_le]
      exact h2
    simp [passesFilter, hlo]
  · intro h1 h2 hmax
    have hup : pyOr it.priceMaxCny (pyOr it.priceMinCny 0) = 0 := by
      rcases hmax with h | h <;> simpa [pyOr, h] using h0
    simp only [passPriceMax, h1, hup, decide_eq_true_eq]
    exact h2

/-- Witness for `missing_price_filter` at a fully unpriced record and a
query with bounds `price_min = 1`, `price_max = 10`. -/
theorem missing_price_filter_witness :
    passesFilter pBothBounds itemNoPrices = false ∧
    passPriceMax pBothBounds itemNoPrices = true := by
  obtain ⟨h1, h2⟩ := missing_price_filter itemNoPrices pBothBounds 1 10 (Or.inl rfl)
  exact ⟨h1 rfl (by norm_num), h2 rfl (by norm_num) (Or.inl rfl)⟩

end Origa
